import Mathlib

/-!
# Verification of the Telegram music-bot session state machine

Shallow embedding of the per-user playback session logic of the repository:

* `src/main.py` — the `Session` class (queue, current index, pause flag,
  message handles) and the handlers `playback_callback`, `play_command`,
  `play_callback` and `start_next`;
* `src/utils/storage.py` — `StorageManager.record_play`;
* duration rendering (`divmod(duration, 60)` + zero-padded `f"{m:02d}:{s:02d}"`).

Python mutation is modelled by explicit state passing: a method that mutates
`self` and returns a `bool` becomes a function `Session → Session × Bool`.
Chat/message side effects are modelled as signal values returned next to the
state; the long-running audio fetch is an `Except String FetchResult`
parameter, so every claim can be quantified over fetch success and failure.
-/

/-- A track record, as stored in `Session.queue`.  The Python code keeps
plain dicts; optional fields model dict keys that some producers omit
(`extract_playlist_videos` entries carry no `uploader`/`thumbnail` key,
the single-video `/play` branch stores `duration = None`). -/
structure Track where
  id : String
  title : String
  url : String
  /-- `none` models both an absent key and a `None` value; the only site
  producing `None` is the single-video branch of `play_command`. -/
  duration : Option Nat
  uploader : Option String
  thumbnail : Option String
  deriving DecidableEq, Repr

/-- `Session.__init__` state (src/main.py lines 37-44).  Message/chat
identifiers are integers in Telegram (chat ids may be negative), hence
`Option Int`; `current_download_task` only matters through being set or
not. -/
structure Session where
  queue : List Track := []
  current_index : Option Nat := none
  message_id : Option Int := none
  chat_id : Option Int := none
  is_paused : Bool := false
  current_download_task : Option Unit := none
  downloading_message_id : Option Int := none
  deriving DecidableEq, Repr

/-- Python truthiness of an `Optional[int]`: `None` and `0` are falsy.
Used where the code tests `if session.chat_id:` etc. -/
def optTruthy (o : Option Int) : Bool :=
  match o with
  | none => false
  | some n => decide (n ≠ 0)

/-- `Session.add_track` (lines 46-50): append to the queue; if
`current_index` is `None`, set it to `0`. -/
def Session.add_track (s : Session) (track_info : Track) : Session :=
  { s with
      queue := s.queue ++ [track_info],
      current_index :=
        match s.current_index with
        | none => some 0
        | some i => some i }

/-- `Session.get_current_track` (lines 52-56).  The Python body indexes
`self.queue[self.current_index]` after guarding `None`/empty; an
out-of-range index would raise `IndexError` in Python and is modelled as
`none` here (unreachable under the index invariant). -/
def Session.get_current_track (s : Session) : Option Track :=
  match s.current_index with
  | none => none
  | some i => if s.queue.isEmpty then none else s.queue[i]?

/-- `Session.next_track` (lines 58-65): returns the mutated session and
the Python return value. -/
def Session.next_track (s : Session) : Session × Bool :=
  match s.current_index with
  | none => (s, false)
  | some i =>
      if s.queue.isEmpty then (s, false)
      else if i < s.queue.length - 1 then
        ({ s with current_index := some (i + 1) }, true)
      else (s, false)

/-- `Session.prev_track` (lines 67-74). -/
def Session.prev_track (s : Session) : Session × Bool :=
  match s.current_index with
  | none => (s, false)
  | some i =>
      if s.queue.isEmpty then (s, false)
      else if 0 < i then
        ({ s with current_index := some (i - 1) }, true)
      else (s, false)

/-- `Session.clear` (lines 76-86): every field reset, the pending download
task cancelled and dropped. -/
def Session.clear (s : Session) : Session :=
  { s with
      queue := [],
      current_index := none,
      message_id := none,
      chat_id := none,
      is_paused := false,
      downloading_message_id := none,
      current_download_task := none }

/-- The `user_sessions` dict (line 91): the process-wide session store. -/
abbrev Store := Nat → Option Session

/-- `get_session` (lines 93-97): lazily create a session on first
reference and remember it in the store. -/
def getSession (store : Store) (user_id : Nat) : Session × Store :=
  match store user_id with
  | some s => (s, store)
  | none =>
      let fresh : Session := {}
      (fresh, fun k => if k = user_id then some fresh else store k)

/-- The `stop` branch of `playback_callback` (lines 189-209) ends with
`session.clear()` followed by `user_sessions.pop(user_id, None)`; the
cleared object is no longer reachable through the store, so the store
effect is exactly the removal of the key. -/
def stopAction (store : Store) (user_id : Nat) : Store :=
  fun k => if k = user_id then none else store k

/-- The `pause` branch of `playback_callback` (lines 162-168): only the
flag is set (the keyboard refresh is presentation-only). -/
def pauseAction (s : Session) : Session :=
  { s with is_paused := true }

/-- The `resume` branch of `playback_callback` (lines 169-176): the flag
is cleared, then `start_next` is invoked. -/
def resumeAction (s : Session) : Session :=
  { s with is_paused := false }

/-- Exact text edited into the status message when `next_track` returns
`False` in `playback_callback` (line 183). -/
def queueEmptyText : String :=
  "❌ Queue is empty. Use /search to add more tracks."

/-- Outcome of the `next` button branch of `playback_callback`. -/
inductive NextSignal where
  /-- `next_track` returned `True` and `start_next` was invoked. -/
  | startDelivery
  /-- `next_track` returned `False`: the status message is edited to the
  terminal notice instead, and no exception is raised. -/
  | queueFinishedNotice (text : String)
  deriving DecidableEq, Repr

/-- The `next` branch of `playback_callback` (lines 177-188). -/
def nextAction (s : Session) : Session × NextSignal :=
  let r := Session.next_track s
  if r.2 then (r.1, NextSignal.startDelivery)
  else (r.1, NextSignal.queueFinishedNotice queueEmptyText)

/-- Outcome signal of the `/play` handler and of the search-result
selection callback. -/
inductive PlaySignal where
  /-- Playlist branch succeeded: notice with the number of tracks, then
  `start_next`. -/
  | playlistEnqueued (count : Nat)
  /-- Playlist extraction raised: the reply text sent to the user. -/
  | playlistError (text : String)
  /-- Queue was empty: playback starts immediately via `start_next`. -/
  | startedPlayback
  /-- Queue was non-empty: transient confirmation names the track. -/
  | addedToQueue (title : String)
  deriving DecidableEq, Repr

/-- The playlist branch of `play_command` (lines 630-660).
`session.chat_id` is assigned before the `try` (line 633); the resolved
playlist (or the extraction failure) is the `resolved` parameter, standing
for the `extract_playlist_videos` call. -/
def playCommandPlaylist (s : Session) (chat_id : Int)
    (resolved : Except String (List Track)) : Session × PlaySignal :=
  let s1 := { s with chat_id := some chat_id }
  match resolved with
  | Except.ok videos =>
      ({ s1 with queue := videos, current_index := some 0, is_paused := false },
        PlaySignal.playlistEnqueued videos.length)
  | Except.error e =>
      (s1, PlaySignal.playlistError (("❌ Error extracting playlist: ") ++ e))

/-- The single-video branch of `play_command` (lines 662-672): the queue
is replaced by one unresolved track whose `duration` is Python `None`. -/
def playCommandSingle (s : Session) (chat_id : Int) (url : String) :
    Session × PlaySignal :=
  let s1 := { s with chat_id := some chat_id }
  ({ s1 with
      queue := [{ id := (""), title := ("Unknown"), url := url,
                  duration := none, uploader := none, thumbnail := none }],
      current_index := some 0,
      is_paused := false },
    PlaySignal.startedPlayback)

/-- `play_callback` (lines 560-622), session effects only: set `chat_id`
when falsy (line 570), then either start a fresh one-track queue or append
to the existing queue. -/
def playCallbackSelect (s : Session) (chat_id : Int) (track_info : Track) :
    Session × PlaySignal :=
  let s1 := if optTruthy s.chat_id then s else { s with chat_id := some chat_id }
  if s1.queue.isEmpty then
    ({ s1 with queue := [track_info], current_index := some 0, is_paused := false },
      PlaySignal.startedPlayback)
  else
    ({ s1 with queue := s1.queue ++ [track_info] },
      PlaySignal.addedToQueue track_info.title)

/-- Python `divmod(a, b)` on non-negative integers. -/
def divmod (a b : Nat) : Nat × Nat := (a / b, a % b)

/-- Python format spec `02d` on a non-negative integer: pad with zeros on
the left to a minimum width of two. -/
def pad2 (n : Nat) : String :=
  let s := Nat.repr n
  String.mk (List.replicate (2 - s.length) '0') ++ s

/-- Duration rendering of `start_next` (lines 299-302):
`minutes, seconds = divmod(duration, 60)` then `f"{minutes:02d}:{seconds:02d}"`. -/
def formatDuration (d : Nat) : String :=
  let md := divmod d 60
  pad2 md.1 ++ (":") ++ pad2 md.2

/-- Modelled from the spec sentence: the rendered duration string is the
zero-padded minutes and seconds given by `duration // 60` and
`duration % 60`, separated by a colon. -/
def formatDurationSpec (d : Nat) : String :=
  pad2 (d / 60) ++ (":") ++ pad2 (d % 60)

/-- Result of the fetch (`download_audio_stream`): the file path plus the
metadata used for lazy enrichment of the current track. -/
structure FetchResult where
  filepath : String
  uploader : String
  thumbnail : String
  deriving DecidableEq, Repr

/-- Message identifiers produced by the chat surface during one
`start_next` pass (successful sends assumed; presentation failures are
out of the claims' scope). -/
structure PresentEnv where
  downloading_msg_id : Int
  new_msg_id : Int
  deriving DecidableEq, Repr

/-- Session-visible outcome of one `start_next` pass. -/
inductive DeliveryResult where
  /-- Early return (lines 289-296): no queue or no current index. -/
  | noQueue
  /-- `self.queue[self.current_index]` would raise `IndexError`
  (unreachable under the index invariant). -/
  | indexOutOfRange
  /-- `divmod(None, 60)` raises `TypeError`, caught by the outer handler
  (line 543) which edits a session-error text. -/
  | renderCrash
  /-- A send to a falsy `chat_id` raises, caught by the outer handler. -/
  | sessionError
  /-- `session.is_paused` was true at line 401: no fetch starts. -/
  | paused
  /-- The fetch raised: error text, and whether the status message was
  actually edited (line 530 guard). -/
  | fetchFailed (edited : Bool) (text : String)
  /-- Audio delivered and a next track exists: `current_index` was
  incremented and the loop recurses (lines 501-505). -/
  | deliveredAdvance (new_index : Nat)
  /-- Audio delivered, end of queue: queue-finished notice (line 508
  guard tells whether it was posted). -/
  | queueFinishedMessage (notified : Bool)
  deriving DecidableEq, Repr

/-- Status text rendered at lines 305-310. -/
def nowPlayingText (track : Track) (d : Nat) : String :=
  ("🎶 Now Playing:\n") ++ track.title ++ ("\n🧑‍🎤 Author: ")
    ++ track.uploader.getD ("Unknown Artist")
    ++ ("\n⏱️ Duration: ") ++ formatDuration d

/-- Lines 400-542 of `start_next`: the fetch/delivery phase, entered after
the status message is in place.  `i` is the current index and `track` the
current track; `fetch` stands for the combined download-and-send block
guarded by the `except` at line 527. -/
def continueDelivery (s : Session) (i : Nat) (track : Track)
    (fetch : Except String FetchResult) : Session × DeliveryResult :=
  if s.is_paused then (s, DeliveryResult.paused)
  else
    match fetch with
    | Except.error e =>
        (s, DeliveryResult.fetchFailed
          (optTruthy s.message_id && optTruthy s.chat_id)
          (("❌ Could not play ") ++ track.title ++ (": ") ++ e))
    | Except.ok r =>
        let track1 := { track with
          uploader :=
            match track.uploader with
            | none => some r.uploader
            | some u => some u,
          thumbnail :=
            match track.thumbnail with
            | none => some r.thumbnail
            | some t => some t }
        let s1 := { s with queue := s.queue.set i track1 }
        let s2 :=
          if optTruthy s1.downloading_message_id && optTruthy s1.chat_id then
            { s1 with downloading_message_id := none }
          else s1
        if i + 1 < s2.queue.length then
          ({ s2 with current_index := some (i + 1) },
            DeliveryResult.deliveredAdvance (i + 1))
        else
          (s2, DeliveryResult.queueFinishedMessage
            (optTruthy s2.message_id && optTruthy s2.chat_id))

/-- One pass of `start_next` (lines 285-542), session effects only.
Presentation sends are assumed to succeed and yield the identifiers in
`env`; the recursion at line 505 is represented by the
`deliveredAdvance` result rather than unfolded. -/
def startNextStep (env : PresentEnv) (s0 : Session)
    (fetch : Except String FetchResult) : Session × DeliveryResult :=
  if s0.queue.isEmpty || s0.current_index.isNone then (s0, DeliveryResult.noQueue)
  else
    match s0.current_index with
    | none => (s0, DeliveryResult.noQueue)
    | some i =>
        match s0.queue[i]? with
        | none => (s0, DeliveryResult.indexOutOfRange)
        | some track =>
            match track.duration with
            | none => (s0, DeliveryResult.renderCrash)
            | some _ =>
                let s1 :=
                  if optTruthy s0.chat_id then
                    { s0 with downloading_message_id := some env.downloading_msg_id }
                  else s0
                if optTruthy s1.message_id && optTruthy s1.chat_id then
                  continueDelivery s1 i track fetch
                else if optTruthy s1.chat_id then
                  continueDelivery { s1 with message_id := some env.new_msg_id } i track fetch
                else (s1, DeliveryResult.sessionError)

/-- One history entry of `StorageManager.record_play`
(src/utils/storage.py lines 59-65). -/
structure HistEntry where
  timestamp : String
  title : String
  url : String
  duration : Nat
  deriving DecidableEq, Repr

/-- `record_play` on one user key (src/utils/storage.py lines 66-76):
insert at the front, then truncate to the first 100 entries. -/
def recordPlay (history : List HistEntry) (entry : HistEntry) : List HistEntry :=
  let h1 := entry :: history
  if h1.length > 100 then h1.take 100 else h1

/-- The data-model invariant of the spec: `current_index` is `None` or a
valid position of `queue`. -/
def indexInv (s : Session) : Prop :=
  match s.current_index with
  | none => True
  | some i => i < s.queue.length

instance decIndexInv (s : Session) : Decidable (indexInv s) :=
  match s with
  | { current_index := none, .. } => Decidable.isTrue trivial
  | { queue := q, current_index := some i, .. } =>
      inferInstanceAs (Decidable (i < q.length))

/-! ## Fixtures for witnesses -/

def trackA : Track :=
  { id := ("a1"), title := ("Track A"), url := ("https://example.org/a"),
    duration := some 30, uploader := some ("Artist A"), thumbnail := none }

def trackB : Track :=
  { id := ("b2"), title := ("Track B"), url := ("https://example.org/b"),
    duration := some 90, uploader := none, thumbnail := none }

def demoSession2 : Session :=
  { queue := [trackA, trackB], current_index := some 0,
    message_id := some 10, chat_id := some 7, is_paused := false,
    current_download_task := none, downloading_message_id := none }

def demoSessionLast : Session :=
  { demoSession2 with current_index := some 1 }

def histA : HistEntry :=
  { timestamp := ("2026-01-01T00:00:00"), title := ("Track A"),
    url := ("https://example.org/a"), duration := 30 }

def histB : HistEntry :=
  { timestamp := ("2026-01-02T00:00:00"), title := ("Track B"),
    url := ("https://example.org/b"), duration := 90 }

/-! ## Claims -/

/-- C3: For every prior session state and store contents, Stop leaves the
cleared session with an empty queue and `current_index = None`, removes
the user from the session store, and a subsequent `get_session` reference
yields a fresh default session. -/
theorem C3_stop_clears_and_removes (store : Store) (user_id : Nat) (s : Session) :
    (Session.clear s).queue = []
    ∧ (Session.clear s).current_index = none
    ∧ stopAction store user_id user_id = none
    ∧ (getSession (stopAction store user_id) user_id).1 = ({} : Session) := by
  refine ⟨rfl, rfl, ?_, ?_⟩
  · simp [stopAction]
  · simp [getSession, stopAction]

/-- C5: PlayNow with a playlist replaces the queue wholesale with the
resolved tracks and sets `current_index` to 0 on success; on a resolution
failure the queue and `current_index` are exactly those of the prior
session (the operation is atomic on error). -/
theorem C5_playlist_atomic (s : Session) (chat_id : Int)
    (videos : List Track) (e : String) :
    ((playCommandPlaylist s chat_id (Except.ok videos)).1.queue = videos
      ∧ (playCommandPlaylist s chat_id (Except.ok videos)).1.current_index = some 0)
    ∧ ((playCommandPlaylist s chat_id (Except.error e)).1.queue = s.queue
      ∧ (playCommandPlaylist s chat_id (Except.error e)).1.current_index = s.current_index
      ∧ (playCommandPlaylist s chat_id (Except.error e)).2
          = PlaySignal.playlistError (("❌ Error extracting playlist: ") ++ e)) := by
  refine ⟨⟨rfl, rfl⟩, rfl, rfl, rfl⟩

/-- C6: The rendered duration string is the zero-padded minutes and
seconds given by `duration // 60` and `duration % 60`, separated by a
colon; in particular `0 ↦ "00:00"`, `65 ↦ "01:05"`, `3600 ↦ "60:00"`. -/
theorem C6_duration_format (d : Nat) :
    formatDuration d = formatDurationSpec d
    ∧ formatDuration 0 = ("00:00")
    ∧ formatDuration 65 = ("01:05")
    ∧ formatDuration 3600 = ("60:00") :=
  ⟨rfl, rfl, rfl, rfl⟩

/-- C7: Enqueuing tracks A then B appends them in that order at the end of
the queue, preserving every existing entry (duplicates included); if
`current_index` was `None` before the first enqueue it becomes 0,
otherwise it is unchanged; no other session field changes. -/
theorem C7_enqueue_order (s : Session) (A B : Track) :
    (Session.add_track (Session.add_track s A) B).queue = s.queue ++ [A, B]
    ∧ (Session.add_track (Session.add_track s A) B).current_index
        = some ((s.current_index).getD 0)
    ∧ (Session.add_track (Session.add_track s A) B).message_id = s.message_id
    ∧ (Session.add_track (Session.add_track s A) B).chat_id = s.chat_id
    ∧ (Session.add_track (Session.add_track s A) B).is_paused = s.is_paused
    ∧ (Session.add_track (Session.add_track s A) B).current_download_task
        = s.current_download_task
    ∧ (Session.add_track (Session.add_track s A) B).downloading_message_id
        = s.downloading_message_id := by
  obtain ⟨q, ci, mi, chi, ip, dt, dmi⟩ := s
  cases ci <;> simp [Session.add_track]

/-- C1: For a session with a non-empty queue (and a valid current index,
per the data-model invariant), the Advance operation of
`playback_callback` increments `current_index` by exactly one and starts
delivery whenever a next position exists; when `current_index` is already
the last index it is left unchanged and the terminal notice is produced
instead of an error. -/
theorem C1_advance (s : Session) (i : Nat)
    (hq : s.queue ≠ []) (hi : s.current_index = some i)
    (hlt : i < s.queue.length) :
    (i + 1 < s.queue.length →
      nextAction s
        = ({ s with current_index := some (i + 1) }, NextSignal.startDelivery))
    ∧ (i = s.queue.length - 1 →
      nextAction s = (s, NextSignal.queueFinishedNotice queueEmptyText)) := by
  obtain ⟨q, ci, mi, chi, ip, dt, dmi⟩ := s
  dsimp only at hi hq hlt ⊢
  subst hi
  have hne : q.isEmpty = false := by
    cases q with
    | nil => simp at hq
    | cons a t => rfl
  refine ⟨?_, ?_⟩
  · intro h1
    have h2 : i < q.length - 1 := by omega
    simp [nextAction, Session.next_track, hne, h2]
  · intro h1
    have h2 : ¬ i < q.length - 1 := by omega
    simp [nextAction, Session.next_track, hne, h2]

/-- C1 witness: on a two-track queue at index 0, Advance moves to index 1;
at the last index it produces the terminal notice and changes nothing. -/
theorem C1_advance_witness :
    nextAction demoSession2
      = ({ demoSession2 with current_index := some (0 + 1) }, NextSignal.startDelivery)
    ∧ nextAction demoSessionLast
      = (demoSessionLast, NextSignal.queueFinishedNotice queueEmptyText) :=
  ⟨(C1_advance demoSession2 0 (by decide) rfl (by decide)).1 (by decide),
   (C1_advance demoSessionLast 1 (by decide) rfl (by decide)).2 (by decide)⟩

/-- C9: Retreat decrements `current_index` by one exactly when it is
positive, otherwise it is a no-op returning `False` with no error; on the
fresh empty session the index stays `None` and the queue is unchanged. -/
theorem C9_retreat (s : Session) (hinv : indexInv s) :
    ((Session.prev_track s).2 = true ↔ ∃ i, s.current_index = some i ∧ 0 < i)
    ∧ (∀ i, s.current_index = some i → 0 < i →
        Session.prev_track s = ({ s with current_index := some (i - 1) }, true))
    ∧ ((Session.prev_track s).2 = false → (Session.prev_track s).1 = s)
    ∧ Session.prev_track ({} : Session) = ({}, false) := by
  obtain ⟨q, ci, mi, chi, ip, dt, dmi⟩ := s
  cases ci with
  | none => simp [Session.prev_track]
  | some i =>
    have hlen : i < q.length := hinv
    have hne : q.isEmpty = false := by
      cases q with
      | nil => simp at hlen
      | cons a t => rfl
    refine ⟨?_, ?_, ?_, rfl⟩
    · by_cases hpos : 0 < i
      · simp [Session.prev_track, hne, hpos]
      · simp [Session.prev_track, hne, hpos]
    · intro j hj hjpos
      obtain rfl : i = j := by injection hj
      simp [Session.prev_track, hne, hjpos]
    · by_cases hpos : 0 < i
      · simp [Session.prev_track, hne, hpos]
      · simp [Session.prev_track, hne, hpos]

/-- C9 witness: on a two-track queue at index 1, Retreat moves back to
index 0 and returns `True`; on the fresh empty session it is a no-op. -/
theorem C9_retreat_witness :
    Session.prev_track demoSessionLast
      = ({ demoSessionLast with current_index := some (1 - 1) }, true)
    ∧ Session.prev_track ({} : Session) = ({}, false) :=
  ⟨(C9_retreat demoSessionLast (by decide)).2.1 1 rfl (by decide),
   (C9_retreat demoSessionLast (by decide)).2.2.2⟩

/-- C10: whenever `next_track` returns `True`, an immediately following
`prev_track` also returns `True` and restores the session exactly (so
`current_index` returns to its prior value), and the intermediate state
differs at most in `current_index`: queue, pause flag and all message
handles are untouched by both calls. -/
theorem C10_next_prev_inverse (s : Session)
    (h : (Session.next_track s).2 = true) :
    (Session.prev_track (Session.next_track s).1).2 = true
    ∧ (Session.prev_track (Session.next_track s).1).1 = s
    ∧ (Session.next_track s).1.queue = s.queue
    ∧ (Session.next_track s).1.is_paused = s.is_paused
    ∧ (Session.next_track s).1.message_id = s.message_id
    ∧ (Session.next_track s).1.chat_id = s.chat_id
    ∧ (Session.next_track s).1.downloading_message_id = s.downloading_message_id := by
  obtain ⟨q, ci, mi, chi, ip, dt, dmi⟩ := s
  cases ci with
  | none => simp [Session.next_track] at h
  | some i =>
    by_cases hne : q.isEmpty
    · simp [Session.next_track, hne] at h
    · by_cases hlt : i < q.length - 1
      · simp [Session.next_track, Session.prev_track, hne, hlt]
      · simp [Session.next_track, hne, hlt] at h

/-- C10 witness: on a two-track queue at index 0, next then prev returns
`True` and restores the original session. -/
theorem C10_next_prev_witness :
    (Session.prev_track (Session.next_track demoSession2).1).2 = true
    ∧ (Session.prev_track (Session.next_track demoSession2).1).1 = demoSession2 :=
  ⟨(C10_next_prev_inverse demoSession2 (by decide)).1,
   (C10_next_prev_inverse demoSession2 (by decide)).2.1⟩

/-- C2 counterexample: PlayNow with a playlist reference that resolves to
the empty sequence leaves `current_index = 0` with an empty queue,
violating the invariant `0 <= current_index < len(queue)` on a session
that satisfied it before the operation. -/
theorem C2_counterexample :
    indexInv ({} : Session)
    ∧ ¬ indexInv (playCommandPlaylist ({} : Session) 1 (Except.ok [])).1 := by
  decide

/-- C2 (amended): Enqueue, Advance, Retreat, Pause, Resume, Stop, PlayNow
with a single track, and select-result PlayNow all preserve the invariant
that `current_index` is `None` or a valid position of `queue`; PlayNow
with a playlist preserves it when the resolved sequence is non-empty, and
also on a resolution failure — only an empty successful resolution
violates it, leaving `current_index = 0` with an empty queue. -/
theorem C2_index_invariant (s : Session) (t : Track) (c : Int)
    (u e : String) (videos : List Track)
    (hinv : indexInv s) (hne : videos ≠ []) :
    indexInv (Session.add_track s t)
    ∧ indexInv (Session.next_track s).1
    ∧ indexInv (Session.prev_track s).1
    ∧ indexInv (pauseAction s)
    ∧ indexInv (resumeAction s)
    ∧ indexInv (Session.clear s)
    ∧ indexInv (playCommandSingle s c u).1
    ∧ indexInv (playCallbackSelect s c t).1
    ∧ indexInv (playCommandPlaylist s c (Except.ok videos)).1
    ∧ indexInv (playCommandPlaylist s c (Except.error e)).1 := by
  obtain ⟨q, ci, mi, chi, ip, dt, dmi⟩ := s
  refine ⟨?_, ?_, ?_, ?_, ?_, trivial, ?_, ?_, ?_, ?_⟩
  · -- add_track
    cases ci with
    | none =>
        show 0 < (q ++ [t]).length
        simp
    | some i =>
        have hl : i < q.length := hinv
        show i < (q ++ [t]).length
        simp
        omega
  · -- next_track
    cases ci with
    | none => exact hinv
    | some i =>
        by_cases hq : q.isEmpty
        · simpa [Session.next_track, hq] using hinv
        · by_cases hlt : i < q.length - 1
          · have hql : q ≠ [] := by
              intro hnil
              subst hnil
              simp at hq
            have hpos : 0 < q.length := List.length_pos.mpr hql
            have : i + 1 < q.length := by omega
            simpa [Session.next_track, hq, hlt, indexInv] using this
          · simpa [Session.next_track, hq, hlt] using hinv
  · -- prev_track
    cases ci with
    | none => exact hinv
    | some i =>
        have hl : i < q.length := hinv
        by_cases hq : q.isEmpty
        · simpa [Session.prev_track, hq] using hinv
        · by_cases hpos : 0 < i
          · have : i - 1 < q.length := by omega
            simpa [Session.prev_track, hq, hpos, indexInv] using this
          · simpa [Session.prev_track, hq, hpos] using hinv
  · exact hinv
  · exact hinv
  · -- playCommandSingle
    show (0 : Nat) < 1
    omega
  · -- playCallbackSelect
    by_cases hc : optTruthy chi
    · by_cases hq : q.isEmpty
      · simp [playCallbackSelect, hc, hq, indexInv]
      · cases ci with
        | none => simp [playCallbackSelect, hc, hq, indexInv]
        | some i =>
            have hl : i < q.length := hinv
            have : i < (q ++ [t]).length := by
              simp
              omega
            simpa [playCallbackSelect, hc, hq, indexInv] using this
    · by_cases hq : q.isEmpty
      · simp [playCallbackSelect, hc, hq, indexInv]
      · cases ci with
        | none => simp [playCallbackSelect, hc, hq, indexInv]
        | some i =>
            have hl : i < q.length := hinv
            have : i < (q ++ [t]).length := by
              simp
              omega
            simpa [playCallbackSelect, hc, hq, indexInv] using this
  · -- playlist, non-empty resolution
    have : 0 < videos.length := List.length_pos.mpr hne
    simpa [playCommandPlaylist, indexInv] using this
  · -- playlist, resolution failure
    cases ci with
    | none => exact hinv
    | some i => exact hinv

/-- C2 witness for the amended claim: concrete checks on a two-track
session and a one-track playlist resolution. -/
theorem C2_index_invariant_witness :
    indexInv (Session.add_track demoSession2 trackB)
    ∧ indexInv (playCommandPlaylist demoSession2 7 (Except.ok [trackA])).1 :=
  ⟨(C2_index_invariant demoSession2 trackB 7 ("u") ("e") [trackA]
      (by decide) (by decide)).1,
   (C2_index_invariant demoSession2 trackB 7 ("u") ("e") [trackA]
      (by decide) (by decide)).2.2.2.2.2.2.2.2.1⟩

/-- C4: when the audio fetch for the current track fails, one `start_next`
pass edits the status message to the error text (the `edited` flag of the
result), leaves `current_index` and the queue unchanged, and does not
auto-advance to the next queue position. -/
theorem C4_fetch_failure (env : PresentEnv) (s : Session) (i : Nat)
    (track : Track) (d : Nat) (e : String)
    (hi : s.current_index = some i)
    (ht : s.queue[i]? = some track)
    (hd : track.duration = some d)
    (hp : s.is_paused = false)
    (hc : optTruthy s.chat_id = true)
    (hm : env.new_msg_id ≠ 0) :
    (startNextStep env s (Except.error e)).1.current_index = s.current_index
    ∧ (startNextStep env s (Except.error e)).1.queue = s.queue
    ∧ (startNextStep env s (Except.error e)).2
        = DeliveryResult.fetchFailed true
            (("❌ Could not play ") ++ track.title ++ (": ") ++ e) := by
  obtain ⟨q, ci, mi, chi, ip, dt, dmi⟩ := s
  dsimp only at hi ht hp hc ⊢
  subst hi
  subst hp
  have hqe : q.isEmpty = false := by
    cases q with
    | nil => simp at ht
    | cons a t' => rfl
  have hmsg : optTruthy (some env.new_msg_id) = true := by
    simp [optTruthy, hm]
  cases hmi : optTruthy mi with
  | true => simp [startNextStep, continueDelivery, hqe, ht, hd, hc, hmi]
  | false => simp [startNextStep, continueDelivery, hqe, ht, hd, hc, hmi, hmsg]

/-- C4 witness: a concrete failing fetch on a two-track session leaves the
index at 0, the queue intact, and reports the error edit. -/
theorem C4_fetch_failure_witness :
    (startNextStep ⟨5, 6⟩ demoSession2 (Except.error ("boom"))).1.current_index
        = demoSession2.current_index
    ∧ (startNextStep ⟨5, 6⟩ demoSession2 (Except.error ("boom"))).1.queue
        = demoSession2.queue
    ∧ (startNextStep ⟨5, 6⟩ demoSession2 (Except.error ("boom"))).2
        = DeliveryResult.fetchFailed true
            (("❌ Could not play ") ++ trackA.title ++ (": ") ++ ("boom")) :=
  C4_fetch_failure ⟨5, 6⟩ demoSession2 0 trackA 30 ("boom")
    rfl rfl rfl rfl (by decide) (by decide)

/-- Helper: one `record_play` call never leaves more than 100 entries. -/
theorem recordPlay_length_le (h : List HistEntry) (e : HistEntry) :
    (recordPlay h e).length ≤ 100 := by
  unfold recordPlay
  dsimp only
  split
  · simp
  · omega

/-- Helper: any sequence of `record_play` calls keeps the list within the
cap, starting from any list within the cap. -/
theorem recordPlay_foldl_le (es : List HistEntry) :
    ∀ acc : List HistEntry, acc.length ≤ 100 →
      (es.foldl recordPlay acc).length ≤ 100 := by
  induction es with
  | nil =>
      intro acc hacc
      simpa using hacc
  | cons a t ih =>
      intro acc hacc
      simp only [List.foldl_cons]
      exact ih (recordPlay acc a) (recordPlay_length_le acc a)

/-- C8: `record_play` inserts the new entry at the front (newest first),
the stored list never exceeds 100 entries over any sequence of calls, and
recording into a list that already has 100 entries drops the oldest
(last) entry. -/
theorem C8_history_cap (h : List HistEntry) (e : HistEntry) (es : List HistEntry) :
    (recordPlay h e).head? = some e
    ∧ (recordPlay h e).length ≤ 100
    ∧ (h.length = 100 → recordPlay h e = e :: h.take 99)
    ∧ (es.foldl recordPlay []).length ≤ 100 := by
  refine ⟨?_, recordPlay_length_le h e, ?_, recordPlay_foldl_le es [] (by simp)⟩
  · unfold recordPlay
    dsimp only
    split
    · rw [show (100 : Nat) = 99 + 1 from rfl, List.take_succ_cons]
      rfl
    · rfl
  · intro h100
    have hgt : (e :: h).length > 100 := by
      simp [h100]
    unfold recordPlay
    dsimp only
    rw [if_pos hgt, show (100 : Nat) = 99 + 1 from rfl, List.take_succ_cons]

/-- C8 witness: recording into a full list of 100 entries keeps the new
entry at the front and drops the oldest. -/
theorem C8_history_cap_witness :
    (recordPlay (List.replicate 100 histA) histB).head? = some histB
    ∧ recordPlay (List.replicate 100 histA) histB
        = histB :: (List.replicate 100 histA).take 99 :=
  ⟨(C8_history_cap (List.replicate 100 histA) histB []).1,
   (C8_history_cap (List.replicate 100 histA) histB []).2.2.1 (by simp)⟩
